import Mathlib

/-!
Verification of the NICEpy single-file SDK (src/nice.py) against its
natural-language specification.

Modelling conventions:
* Python `float` values are modelled as `Rat`; every constant compared in the
  claims (3, 1.5, 4, 7.0, 7.3, 5.1, 3.5, 5.5, ...) behaves identically under
  rational and IEEE-double comparison at the inputs involved.
* Python `int` is modelled as `Int`, `Optional[T]` as `Option T`, `str` as
  `String`, and an insertion-ordered `Dict[str, T]` as `List (String × T)`
  with `lookupStep` for `dict.get`.
* The `@dataclass` definitions are transcribed field-for-field.  Note that
  `AlgorithmStep` (nice.py lines 85-94) defines ONLY the eight fields below:
  it has no `details`, `warnings`, `final_diagnosis_recommendation` or
  `stop_condition` field, although other code in the same file passes or
  reads such attributes.  CPython raises `TypeError` when a dataclass
  initializer receives an unexpected keyword argument and `AttributeError`
  when a missing attribute is read; fallible code paths are therefore
  modelled in `Except PyError`.
-/

set_option linter.unusedVariables false

/-- Python exceptions that the transcribed code can raise. -/
inductive PyError where
  | typeError (msg : String)
  | attributeError (msg : String)
deriving DecidableEq, Repr

/-- nice.py line 23: `class BooleanStatus(Enum)`. -/
inductive BooleanStatus where
  | YES | NO | UNKNOWN
deriving DecidableEq, Repr

/-- nice.py line 28: `class KillipClass(Enum)`. -/
inductive KillipClass where
  | CLASS_I | CLASS_II | CLASS_III | CLASS_IV
deriving DecidableEq, Repr

/-- nice.py line 33: `class WellsScoreRiskPE(Enum)`. -/
inductive WellsScoreRiskPE where
  | PE_LIKELY | PE_UNLIKELY
deriving DecidableEq, Repr

/-- nice.py line 40: `class DKASeverity(Enum)`. -/
inductive DKASeverity where
  | MILD | MODERATE | SEVERE
deriving DecidableEq, Repr

/-- nice.py line 43: `class RAActivityLevel(Enum)`. -/
inductive RAActivityLevel where
  | LOW | MODERATE | HIGH
deriving DecidableEq, Repr

/-- nice.py line 44: `class UCExtent(Enum)`. -/
inductive UCExtent where
  | PROCTITIS | PROCTOSIGMOIDITIS | LEFT_SIDED_COLITIS | EXTENSIVE_COLITIS | PANCOLITIS
deriving DecidableEq, Repr

/-- nice.py line 45: `class UCSeverity(Enum)`. -/
inductive UCSeverity where
  | MILD | MODERATE | SEVERE
deriving DecidableEq, Repr

/-- nice.py line 51: `class DrugClass(Enum)` (all 31 members). -/
inductive DrugClass where
  | ACE_INHIBITOR | ARB | BETA_BLOCKER | CALCIUM_CHANNEL_BLOCKER | THIAZIDE_DIURETIC
  | LOOP_DIURETIC | STATIN | ANTIPLATELET | ANTICOAGULANT | FIBRINOLYTIC
  | DOAC | LMWH | UFH | PPI | ANTIBIOTIC | STEROID | SABA | SAMA | LAMA | LABA
  | INSULIN | DMARD_CONVENTIONAL | DMARD_BIOLOGIC_TNF | DMARD_BIOLOGIC_OTHER
  | DMARD_JAK_INHIBITOR | AMINOSALICYLATE | NITRATE | OPIOID | ANTITHROMBIN
  | GPIIbIIIa_INHIBITOR | DOPAMINE_ANTAGONIST
deriving DecidableEq, Repr

/-- nice.py line 54: `class InvestigationType(Enum)` (all 25 members). -/
inductive InvestigationType where
  | ECG | TROPONIN | CHEST_XRAY | CTPA | VQ_SCAN | D_DIMER | BLOOD_CULTURE | ABG
  | U_AND_E | FBC | LIPIDS | GLUCOSE_HBA1C | KETONES_BLOOD_URINE | SPUTUM_MC_S
  | BLOOD_GAS | CRP | ESR | CT_HEAD_NON_CONTRAST | CT_ANGIOGRAM | MRI_BRAIN
  | COLONOSCOPY | ENDOSCOPY | SIGMOIDOSCOPY | DAS28_ASSESSMENT | LFT
deriving DecidableEq, Repr

/-- The Python `Enum.name` attribute for `WellsScoreRiskPE`. -/
def WellsScoreRiskPE.pyName : WellsScoreRiskPE → String
  | .PE_LIKELY => "PE_LIKELY"
  | .PE_UNLIKELY => "PE_UNLIKELY"

/-- The Python `Enum.name` attribute for `RAActivityLevel`. -/
def RAActivityLevel.pyName : RAActivityLevel → String
  | .LOW => "LOW"
  | .MODERATE => "MODERATE"
  | .HIGH => "HIGH"

/-- The Python `Enum.name` attribute for `UCSeverity`. -/
def UCSeverity.pyName : UCSeverity → String
  | .MILD => "MILD"
  | .MODERATE => "MODERATE"
  | .SEVERE => "SEVERE"

/-- The Python `Enum.name` attribute for `UCExtent` (the source spells the
last member with a macron, `PANCŌLITIS`). -/
def UCExtent.pyName : UCExtent → String
  | .PROCTITIS => "PROCTITIS"
  | .PROCTOSIGMOIDITIS => "PROCTOSIGMOIDITIS"
  | .LEFT_SIDED_COLITIS => "LEFT_SIDED_COLITIS"
  | .EXTENSIVE_COLITIS => "EXTENSIVE_COLITIS"
  | .PANCOLITIS => "PANCŌLITIS"

/-- nice.py lines 62-70: `@dataclass class DrugRecommendation`. -/
structure DrugRecommendation where
  name : String
  drug_class : Option DrugClass := none
  dosage_recommendation : Option String := none
  route : Option String := none
  rationale : Option String := none
  duration : Option String := none
  warnings : List String := []
deriving DecidableEq, Repr

/-- nice.py lines 72-77: `@dataclass class InvestigationRecommendation`. -/
structure InvestigationRecommendation where
  investigation_type : InvestigationType
  details : Option String := none
  rationale : Option String := none
  urgency : Option String := some "Routine"
deriving DecidableEq, Repr

/-- nice.py lines 79-82: `@dataclass class ActionRecommendation`. -/
structure ActionRecommendation where
  description : String
  details : Option String := none
deriving DecidableEq, Repr

/-- nice.py lines 84-94: `@dataclass class AlgorithmStep`.  These eight fields
are the complete field list of the dataclass. -/
structure AlgorithmStep where
  step_id : String
  description : String
  condition : Option String := none
  recommended_actions : List ActionRecommendation := []
  investigation_recommendations : List InvestigationRecommendation := []
  drug_recommendations : List DrugRecommendation := []
  conditional_next_step_ids : Option (List (String × String)) := none
  default_next_step_id : Option String := none
deriving DecidableEq, Repr

/-- nice.py lines 96-104: `@dataclass class AlgorithmPlan`. -/
structure AlgorithmPlan where
  condition : String
  start_step_id : String
  steps : List (String × AlgorithmStep) := []
  warnings : List String := []
  required_referrals : List String := []
  final_diagnosis_recommendation : Option String := none
  stop_condition : Option String := none
deriving DecidableEq, Repr

/-- Python `plan.steps.get(step_id)` on the insertion-ordered dict. -/
def lookupStep (steps : List (String × AlgorithmStep)) (id : String) :
    Option AlgorithmStep :=
  (steps.find? (fun p => p.1 == id)).map (fun p => p.2)

/-- Membership of a key in the steps dict. -/
def hasKey (steps : List (String × AlgorithmStep)) (id : String) : Bool :=
  steps.any (fun p => p.1 == id)

/-- All step ids referenced forward by one step: the values of its
`conditional_next_step_ids` map followed by its `default_next_step_id`. -/
def stepRefsOf (s : AlgorithmStep) : List String :=
  ((s.conditional_next_step_ids.getD []).map (fun p => p.2)) ++
    s.default_next_step_id.toList

/-- The structural invariants stated in spec section 3 for `AlgorithmPlan`:
the start step is a key of `steps`, every key equals the owning step field
`step_id`, and every referenced next step id exists in `steps`. -/
def planValidB (p : AlgorithmPlan) : Bool :=
  hasKey p.steps p.start_step_id &&
    p.steps.all (fun q =>
      (q.1 == q.2.step_id) && (stepRefsOf q.2).all (fun r => hasKey p.steps r))

/-- The initializer generated by `@dataclass` for `AlgorithmPlan`
(nice.py lines 96-104).  It has no `__post_init__` and performs no
validation: given its (well-typed) arguments it always returns the record
unchanged.  The only way a call can raise is by omitting one of the two
required positional arguments, which is outside this arity-correct model. -/
def AlgorithmPlan.init (condition start_step_id : String)
    (steps : List (String × AlgorithmStep)) (warnings required_referrals : List String)
    (final_diagnosis_recommendation stop_condition : Option String) :
    Except PyError AlgorithmPlan :=
  Except.ok
    { condition := condition, start_step_id := start_step_id, steps := steps,
      warnings := warnings, required_referrals := required_referrals,
      final_diagnosis_recommendation := final_diagnosis_recommendation,
      stop_condition := stop_condition }

/-- A plan that violates every structural invariant of spec section 3 at
once: its start step id is absent from `steps`, its single key mismatches
the `step_id` of the step it maps to, and the default reference of that
step dangles. -/
def danglingPlan : AlgorithmPlan :=
  { condition := "Demo"
    start_step_id := "MISSING_START"
    steps := [("A", { step_id := "B", description := "key mismatches step_id",
                      default_next_step_id := some "NOWHERE" })] }

/-- nice.py lines 211-224: `calculate_wells_score_pe`. -/
def calculate_wells_score_pe
    (has_clinical_signs_dvt is_pe_most_likely_diagnosis : Bool) (heart_rate : Int)
    (had_immobilisation_or_surgery_last_4_weeks has_previous_dvt_or_pe : Bool)
    (has_haemoptysis has_malignancy : Bool) : Rat :=
  let score : Rat := 0
  let score := if has_clinical_signs_dvt then score + 3 else score
  let score := if is_pe_most_likely_diagnosis then score + 3 else score
  let score := if heart_rate > 100 then score + 3/2 else score
  let score := if had_immobilisation_or_surgery_last_4_weeks then score + 3/2 else score
  let score := if has_previous_dvt_or_pe then score + 3/2 else score
  let score := if has_haemoptysis then score + 1 else score
  let score := if has_malignancy then score + 1 else score
  score

/-- nice.py lines 226-227: `interpret_wells_score_pe`. -/
def interpret_wells_score_pe (score : Rat) : WellsScoreRiskPE :=
  if score > 4 then WellsScoreRiskPE.PE_LIKELY else WellsScoreRiskPE.PE_UNLIKELY

/-- nice.py lines 230-236: `determine_killip_class` (argument order as in
the source: crackles, S3 gallop, frank pulmonary oedema, cardiogenic shock). -/
def determine_killip_class
    (has_lung_crackles has_s3_gallop has_frank_pulmonary_oedema
     is_in_cardiogenic_shock : Bool) : KillipClass :=
  if is_in_cardiogenic_shock then KillipClass.CLASS_IV
  else if has_frank_pulmonary_oedema then KillipClass.CLASS_III
  else if has_lung_crackles || has_s3_gallop then KillipClass.CLASS_II
  else KillipClass.CLASS_I

/-- nice.py lines 248-261: `determine_dka_severity`.  The ketones argument is
checked for presence but its value is never compared. -/
def determine_dka_severity
    (ph_level bicarbonate_mmol_l blood_ketones_mmol_l : Option Rat) :
    Option DKASeverity :=
  match ph_level, bicarbonate_mmol_l, blood_ketones_mmol_l with
  | some ph, some bicarb, some _ =>
      if ph < 7 ∨ bicarb < 5 then some DKASeverity.SEVERE
      else if ph < 73/10 ∨ bicarb < 15 then some DKASeverity.MODERATE
      else some DKASeverity.MILD
  | _, _, _ => none

/-- nice.py lines 271-275: `interpret_das28`. -/
def interpret_das28 (das28_score : Option Rat) : Option RAActivityLevel :=
  match das28_score with
  | none => none
  | some s =>
      if s ≤ 32/10 then some RAActivityLevel.LOW
      else if s ≤ 51/10 then some RAActivityLevel.MODERATE
      else some RAActivityLevel.HIGH

/-- nice.py lines 337-353: `AcuteCoronarySyndrome.get_nstemi_ua_management_plan`.
The `high_bleeding_risk` parameter is accepted but never used by the body.
The risk-stratification link reproduces line 347:
`if grace_score is None or grace_score > 3`. -/
def AcuteCoronarySyndrome.get_nstemi_ua_management_plan
    (grace_score : Option Int) (high_bleeding_risk : Bool) : AlgorithmPlan :=
  let risk_strat_next : String :=
    match grace_score with
    | none => "INVASIVE"
    | some g => if g > 3 then "INVASIVE" else "CONSERVATIVE"
  { condition := "NSTEMI/Unstable Angina"
    start_step_id := "INITIAL"
    steps :=
      [("INITIAL",
        { step_id := "INITIAL",
          description := "Initial Management (Aspirin, Fondaparinux/UFH, Anti-anginal)",
          default_next_step_id := some "RISK_STRAT" }),
       ("RISK_STRAT",
        { step_id := "RISK_STRAT",
          description := "Risk Stratification (GRACE Score)",
          default_next_step_id := some risk_strat_next }),
       ("INVASIVE",
        { step_id := "INVASIVE",
          description := "Intermediate/High Risk: Invasive Strategy",
          default_next_step_id := some "SECONDARY" }),
       ("CONSERVATIVE",
        { step_id := "CONSERVATIVE",
          description := "Low Risk: Conservative Strategy",
          default_next_step_id := some "SECONDARY" }),
       ("SECONDARY",
        { step_id := "SECONDARY",
          description := "Secondary Prevention" })] }

/-- nice.py line 380 builds
`AlgorithmStep(step_id=..., description=..., details=...)`.  The
`AlgorithmStep` dataclass defines no `details` field, so the generated
initializer raises `TypeError` and the arguments are discarded. -/
def AlgorithmStep.initWithDetails (step_id description details : String) :
    Except PyError AlgorithmStep :=
  Except.error (PyError.typeError
    "AlgorithmStep init got an unexpected keyword argument: details")

/-- nice.py line 427 builds `AlgorithmStep` with a
`final_diagnosis_recommendation=` keyword, which is a field of
`AlgorithmPlan` but not of `AlgorithmStep`; CPython raises `TypeError`. -/
def AlgorithmStep.initWithFinalDiagnosis
    (step_id description final_diagnosis_recommendation : String) :
    Except PyError AlgorithmStep :=
  Except.error (PyError.typeError
    "AlgorithmStep init got an unexpected keyword argument: final_diagnosis_recommendation")

/-- nice.py lines 428-429 build `AlgorithmStep` with a `stop_condition=`
keyword, which is a field of `AlgorithmPlan` but not of `AlgorithmStep`;
CPython raises `TypeError`. -/
def AlgorithmStep.initWithStopCondition
    (step_id description stop_condition : String) :
    Except PyError AlgorithmStep :=
  Except.error (PyError.typeError
    "AlgorithmStep init got an unexpected keyword argument: stop_condition")

/-- nice.py lines 365-432: `PulmonaryEmbolism.get_investigation_management_plan`.
The first step construction (line 380) passes `details=` to the
`AlgorithmStep` initializer and therefore raises `TypeError` on every input;
the remainder of the body (transcribed below for reference) is unreachable
and the builder never returns a plan. -/
def PulmonaryEmbolism.get_investigation_management_plan
    (has_clinical_signs_dvt is_pe_most_likely_diagnosis : Bool) (heart_rate : Int)
    (had_immobilisation_or_surgery_last_4_weeks has_previous_dvt_or_pe : Bool)
    (has_haemoptysis has_malignancy is_renal_impaired ctpa_contraindicated : Bool) :
    Except PyError AlgorithmPlan := do
  let wells_score := calculate_wells_score_pe has_clinical_signs_dvt
      is_pe_most_likely_diagnosis heart_rate
      had_immobilisation_or_surgery_last_4_weeks has_previous_dvt_or_pe
      has_haemoptysis has_malignancy
  let pe_risk := interpret_wells_score_pe wells_score
  let assess_risk ← AlgorithmStep.initWithDetails "ASSESS_RISK"
      "Assess Pre-test Probability (Wells Score)"
      ("Score: " ++ toString wells_score ++ ", Risk: " ++ pe_risk.pyName)
  -- Unreachable from here on (lines 381-432 of the source).
  let assess_risk := { assess_risk with
      conditional_next_step_ids := some
        [(WellsScoreRiskPE.PE_LIKELY.pyName, "PE_LIKELY_PATH"),
         (WellsScoreRiskPE.PE_UNLIKELY.pyName, "PE_UNLIKELY_PATH")] }
  let pe_likely_path : AlgorithmStep :=
    { step_id := "PE_LIKELY_PATH", description := "PE Likely Pathway (Wells > 4)",
      drug_recommendations := [{ name := "Apixaban / Rivaroxaban",
                                 drug_class := some DrugClass.DOAC,
                                 rationale := some "Offer interim therapeutic anticoagulation" }],
      investigation_recommendations := [if ctpa_contraindicated || is_renal_impaired then
          { investigation_type := InvestigationType.VQ_SCAN, urgency := some "Immediate" }
         else
          { investigation_type := InvestigationType.CTPA, urgency := some "Immediate" }],
      default_next_step_id := some "AWAIT_IMAGING_LIKELY" }
  let await_imaging_likely : AlgorithmStep :=
    { step_id := "AWAIT_IMAGING_LIKELY", description := "Await Imaging Result",
      conditional_next_step_ids := some
        [("IMAGING_POSITIVE", "PE_CONFIRMED"),
              ("IMAGING_NEGATIVE", "PE_RULED_OUT_CONSIDER_DVT")] }
  let pe_unlikely_path : AlgorithmStep :=
    { step_id := "PE_UNLIKELY_PATH", description := "PE Unlikely Pathway (Wells <= 4)",
      investigation_recommendations := [{ investigation_type := InvestigationType.D_DIMER, urgency := some "Immediate" }],
      default_next_step_id := some "AWAIT_DDIMER" }
  let await_ddimer : AlgorithmStep :=
    { step_id := "AWAIT_DDIMER", description := "Await D-Dimer Result",
      conditional_next_step_ids := some
        [("D-Dimer Positive", "DDIMER_POS_PATH"),
              ("D-Dimer Negative", "PE_RULED_OUT")] }
  let ddimer_pos_path : AlgorithmStep :=
    { step_id := "DDIMER_POS_PATH",
      description := "D-Dimer Positive - Proceed as PE Likely",
      drug_recommendations := [{ name := "Apixaban / Rivaroxaban",
                                 drug_class := some DrugClass.DOAC,
                                 rationale := some "Start interim anticoagulation" }],
      investigation_recommendations := [if ctpa_contraindicated || is_renal_impaired then
          { investigation_type := InvestigationType.VQ_SCAN, urgency := some "Immediate" }
         else
          { investigation_type := InvestigationType.CTPA, urgency := some "Immediate" }],
      default_next_step_id := some "AWAIT_IMAGING_UNLIKELY" }
  let await_imaging_unlikely : AlgorithmStep :=
    { step_id := "AWAIT_IMAGING_UNLIKELY",
      description := "Await Imaging Result (after positive D-Dimer)",
      conditional_next_step_ids := some
        [("IMAGING_POSITIVE", "PE_CONFIRMED"),
              ("IMAGING_NEGATIVE", "PE_RULED_OUT_CONSIDER_DVT")] }
  let pe_confirmed ← AlgorithmStep.initWithFinalDiagnosis "PE_CONFIRMED"
      "PE Confirmed" "PE Confirmed. Continue/Start therapeutic anticoagulation."
  let pe_ruled_out ← AlgorithmStep.initWithStopCondition "PE_RULED_OUT"
      "PE Ruled Out" "PE Ruled Out. Stop anticoagulation. Consider alternative diagnoses."
  let pe_ruled_out_consider_dvt ← AlgorithmStep.initWithStopCondition
      "PE_RULED_OUT_CONSIDER_DVT" "PE Ruled Out, Consider DVT"
      "PE Ruled Out based on imaging. Stop anticoagulation. Consider proximal leg vein ultrasound if DVT suspected despite negative imaging."
  return { condition := "Pulmonary Embolism", start_step_id := "ASSESS_RISK",
           steps :=
             [("ASSESS_RISK", assess_risk),
              ("PE_LIKELY_PATH", pe_likely_path),
              ("AWAIT_IMAGING_LIKELY", await_imaging_likely),
              ("PE_UNLIKELY_PATH", pe_unlikely_path),
              ("AWAIT_DDIMER", await_ddimer),
              ("DDIMER_POS_PATH", ddimer_pos_path),
              ("AWAIT_IMAGING_UNLIKELY", await_imaging_unlikely),
              ("PE_CONFIRMED", pe_confirmed),
              ("PE_RULED_OUT", pe_ruled_out),
              ("PE_RULED_OUT_CONSIDER_DVT", pe_ruled_out_consider_dvt)] }

/-- nice.py lines 492-521: `DiabeticKetoacidosis.get_management_plan`.
All parameters except `potassium_mmol_l` are accepted and never read.
For potassium below 3.5 the source (line 510) appends to
`steps["POTASSIUM"].warnings`; `AlgorithmStep` has no `warnings` field, so
CPython raises `AttributeError` and no plan is returned on that branch.
The two remaining potassium bands (lines 512-515) both link POTASSIUM to
MONITOR_RESOLVE; the redundant conditional is kept to mirror the source. -/
def DiabeticKetoacidosis.get_management_plan
    (weight_kg blood_glucose_mmol_l ph_level bicarbonate_mmol_l
     blood_ketones_mmol_l potassium_mmol_l : Rat) (systolic_bp : Int) :
    Except PyError AlgorithmPlan :=
  if potassium_mmol_l < 7/2 then
    Except.error (PyError.attributeError
      "AlgorithmStep object has no attribute warnings")
  else
    let potassium_next : Option String :=
      if 7/2 ≤ potassium_mmol_l ∧ potassium_mmol_l ≤ 11/2 then some "MONITOR_RESOLVE"
      else some "MONITOR_RESOLVE"
    Except.ok
      { condition := "Diabetic Ketoacidosis (DKA)"
        start_step_id := "CONFIRM_INITIAL"
        steps :=
          [("CONFIRM_INITIAL",
            { step_id := "CONFIRM_INITIAL",
              description := "Confirmation and Initial Actions",
              default_next_step_id := some "FLUIDS" }),
           ("FLUIDS",
            { step_id := "FLUIDS", description := "IV Fluid Replacement",
              default_next_step_id := some "INSULIN" }),
           ("INSULIN",
            { step_id := "INSULIN", description := "Insulin Therapy (FRIII)",
              default_next_step_id := some "POTASSIUM" }),
           ("POTASSIUM",
            { step_id := "POTASSIUM",
              description := "Potassium Replacement (based on initial K+)",
              default_next_step_id := potassium_next }),
           ("MONITOR_RESOLVE",
            { step_id := "MONITOR_RESOLVE",
              description := "Monitoring and DKA Resolution",
              default_next_step_id := some "TRANSITION" }),
           ("TRANSITION",
            { step_id := "TRANSITION",
              description := "Transition to Subcutaneous Insulin" })] }

/-- The fixed step table of the RA plan (nice.py lines 543-560), parametrised
by the one field the branch logic mutates afterwards: the
`default_next_step_id` of CONSIDER_BIOLOGIC (lines 565-574). -/
def RheumatoidArthritis.planSteps (consider_biologic_next : String) :
    List (String × AlgorithmStep) :=
  [("START",
    { step_id := "START", description := "Initial Diagnosis/Assessment",
      default_next_step_id := some "FIRST_LINE_DMARD" }),
   ("FIRST_LINE_DMARD",
    { step_id := "FIRST_LINE_DMARD",
      description := "Initiate First-Line Conventional DMARD",
      default_next_step_id := some "ASSESS_RESPONSE_DMARD" }),
   ("ASSESS_RESPONSE_DMARD",
    { step_id := "ASSESS_RESPONSE_DMARD",
      description := "Assess Response after ~3-6 months",
      conditional_next_step_ids := some
        [(RAActivityLevel.HIGH.pyName, "CONSIDER_BIOLOGIC"),
         (RAActivityLevel.MODERATE.pyName, "OPTIMIZE_DMARD"),
         (RAActivityLevel.LOW.pyName, "CONTINUE_MONITOR")],
      default_next_step_id := some "CONTINUE_MONITOR" }),
   ("OPTIMIZE_DMARD",
    { step_id := "OPTIMIZE_DMARD",
      description := "Optimize/Switch Conventional DMARDs",
      default_next_step_id := some "ASSESS_RESPONSE_DMARD" }),
   ("CONSIDER_BIOLOGIC",
    { step_id := "CONSIDER_BIOLOGIC",
      description := "Consider Biologic/Targeted Synthetic DMARD Therapy",
      default_next_step_id := some consider_biologic_next }),
   ("ADD_ANTI_TNF",
    { step_id := "ADD_ANTI_TNF", description := "Add Anti-TNF Biologic",
      default_next_step_id := some "ASSESS_RESPONSE_BIOLOGIC" }),
   ("SWITCH_BIOLOGIC",
    { step_id := "SWITCH_BIOLOGIC",
      description := "Switch Biologic or JAK inhibitor",
      default_next_step_id := some "ASSESS_RESPONSE_BIOLOGIC" }),
   ("ASSESS_RESPONSE_BIOLOGIC",
    { step_id := "ASSESS_RESPONSE_BIOLOGIC",
      description := "Assess Response to Biologic/tsDMARD",
      default_next_step_id := some "CONTINUE_MONITOR" }),
   ("CONTINUE_MONITOR",
    { step_id := "CONTINUE_MONITOR",
      description := "Continue Current Therapy and Monitor" })]

/-- nice.py lines 534-577: `RheumatoidArthritis.get_management_plan`.
Line 554 computes the activity level and never reads it.  Line 563:
`eligibility_met = (das28_score or 0) > 5.1 and failed_conventional_dmards >= 2`
(an absent score is coerced to 0).  In the eligible branch with a severe
heart failure contraindication and no prior anti-TNF failure, line 571
appends to `steps["CONSIDER_BIOLOGIC"].warnings`, an attribute the
`AlgorithmStep` dataclass does not define, so CPython raises
`AttributeError` there and no plan is returned. -/
def RheumatoidArthritis.get_management_plan
    (das28_score : Option Rat) (failed_conventional_dmards : Int)
    (failed_biologic_tnfi tb_screening_done_and_negative has_active_infection
     has_severe_heart_failure_for_tnfi patient_preference_biologic : Bool) :
    Except PyError AlgorithmPlan :=
  let activity_level := interpret_das28 das28_score
  let can_start_biologic := tb_screening_done_and_negative && !has_active_infection
  let eligibility_met :=
    decide (das28_score.getD 0 > 51/10) && decide (failed_conventional_dmards ≥ 2)
  let planWith := fun consider_biologic_next =>
    Except.ok { condition := "Rheumatoid Arthritis", start_step_id := "START",
                steps := RheumatoidArthritis.planSteps consider_biologic_next }
  if eligibility_met && can_start_biologic then
    if failed_biologic_tnfi then
      planWith "SWITCH_BIOLOGIC"
    else if !has_severe_heart_failure_for_tnfi then
      planWith "ADD_ANTI_TNF"
    else
      Except.error (PyError.attributeError
        "AlgorithmStep object has no attribute warnings")
  else
    planWith "OPTIMIZE_DMARD"

/-- nice.py lines 590-645: `UlcerativeColitis.induce_remission_plan`.
All `AlgorithmStep` constructions in this builder use only real dataclass
fields, so the builder is total.  The parameters
`current_treatment_step_id` and `response_to_last_step` are accepted and
never read, as in the source.  The branch bodies (lines 628-642) mutate
the named fields below; the source `elif severity in [MILD, MODERATE]`
arm is the full complement of the SEVERE arm. -/
def UlcerativeColitis.induce_remission_plan
    (disease_extent : UCExtent) (severity : UCSeverity)
    (current_treatment_step_id : String)
    (response_to_last_step : Option BooleanStatus) : AlgorithmPlan :=
  let severe : Bool := severity = UCSeverity.SEVERE
  let proctitis : Bool := disease_extent = UCExtent.PROCTITIS
  let start_next : Option String :=
    if severe then some "ADMIT_SEVERE"
    else if proctitis then some "TOPICAL_ASA_PROCTITIS"
    else some "TOPICAL_ASA_LEFTEXT"
  let admit_severe_next : Option String :=
    if severe then some "IV_STEROIDS" else none
  let assess_severe_cond : Option (List (String × String)) :=
    if severe then some
      [("IMPROVED", "SWITCH_ORAL_STEROIDS"), ("NO_IMPROVEMENT", "SECOND_LINE_SEVERE")]
    else none
  let assess_rescue_cond : Option (List (String × String)) :=
    if severe then some
      [("IMPROVED", "CONSIDER_MAINTENANCE"), ("NO_RESPONSE", "SURGERY_COLECTOMY")]
    else none
  let proctitis1_cond : Option (List (String × String)) :=
    if !severe && proctitis then some
      [("REMISSION", "CONSIDER_MAINTENANCE"), ("NO_RESPONSE", "ADD_ORAL_ASA_PROCTITIS")]
    else none
  let proctitis2_cond : Option (List (String × String)) :=
    if !severe && proctitis then some
      [("REMISSION", "CONSIDER_MAINTENANCE"), ("NO_RESPONSE", "ADD_TOPICAL_STEROID_PROCTITIS")]
    else none
  let proctitis3_cond : Option (List (String × String)) :=
    if !severe && proctitis then some [("REMISSION", "CONSIDER_MAINTENANCE")]
    else none
  let leftext1_cond : Option (List (String × String)) :=
    if !severe && !proctitis then some
      [("REMISSION", "CONSIDER_MAINTENANCE"), ("NO_RESPONSE", "ADD_ORAL_STEROID_LEFTEXT")]
    else none
  let leftext2_cond : Option (List (String × String)) :=
    if !severe && !proctitis then some [("REMISSION", "CONSIDER_MAINTENANCE")]
    else none
  { condition := "Ulcerative Colitis - Induce Remission (" ++ severity.pyName ++
      ", " ++ disease_extent.pyName ++ ")"
    start_step_id := "START"
    steps :=
      [("START",
        { step_id := "START",
          description := "Initial treatment for " ++ severity.pyName ++ " " ++
            disease_extent.pyName,
          default_next_step_id := start_next }),
       ("CONSIDER_MAINTENANCE",
        { step_id := "CONSIDER_MAINTENANCE",
          description := "Remission Achieved - Consider Maintenance Therapy" }),
       ("ADMIT_SEVERE",
        { step_id := "ADMIT_SEVERE",
          description := "Admit to hospital for Severe UC",
          recommended_actions := [{ description := "Assess VTE risk + LMWH" }],
          default_next_step_id := admit_severe_next }),
       ("IV_STEROIDS",
        { step_id := "IV_STEROIDS", description := "IV Corticosteroids",
          drug_recommendations := [{ name := "IV Hydrocortisone / Methylprednisolone" }],
          default_next_step_id := some "ASSESS_RESPONSE_SEVERE" }),
       ("ASSESS_RESPONSE_SEVERE",
        { step_id := "ASSESS_RESPONSE_SEVERE",
          description := "Assess response after 72 hours",
          conditional_next_step_ids := assess_severe_cond }),
       ("SWITCH_ORAL_STEROIDS",
        { step_id := "SWITCH_ORAL_STEROIDS",
          description := "Switch to Oral Steroids",
          default_next_step_id := some "CONSIDER_MAINTENANCE" }),
       ("SECOND_LINE_SEVERE",
        { step_id := "SECOND_LINE_SEVERE",
          description := "Add IV Ciclosporin OR Biologic (Infliximab)",
          default_next_step_id := some "ASSESS_RESPONSE_RESCUE" }),
       ("ASSESS_RESPONSE_RESCUE",
        { step_id := "ASSESS_RESPONSE_RESCUE",
          description := "Assess response to rescue therapy (4-7 days)",
          conditional_next_step_ids := assess_rescue_cond }),
       ("SURGERY_COLECTOMY",
        { step_id := "SURGERY_COLECTOMY", description := "Consider Colectomy" }),
       ("TOPICAL_ASA_PROCTITIS",
        { step_id := "TOPICAL_ASA_PROCTITIS",
          description := "Topical 5-ASA (Suppository)",
          default_next_step_id := some "ASSESS_RESPONSE_PROCTITIS_1" }),
       ("ASSESS_RESPONSE_PROCTITIS_1",
        { step_id := "ASSESS_RESPONSE_PROCTITIS_1",
          description := "Assess Proctitis response (4 weeks)",
          conditional_next_step_ids := proctitis1_cond }),
       ("ADD_ORAL_ASA_PROCTITIS",
        { step_id := "ADD_ORAL_ASA_PROCTITIS",
          description := "Add Oral 5-ASA to Topical 5-ASA",
          default_next_step_id := some "ASSESS_RESPONSE_PROCTITIS_2" }),
       ("ASSESS_RESPONSE_PROCTITIS_2",
        { step_id := "ASSESS_RESPONSE_PROCTITIS_2",
          description := "Assess Proctitis response (4 weeks)",
          conditional_next_step_ids := proctitis2_cond }),
       ("ADD_TOPICAL_STEROID_PROCTITIS",
        { step_id := "ADD_TOPICAL_STEROID_PROCTITIS",
          description := "Add Topical Steroid (or switch Oral 5-ASA to Oral Steroid)",
          default_next_step_id := some "ASSESS_RESPONSE_PROCTITIS_3" }),
       ("ASSESS_RESPONSE_PROCTITIS_3",
        { step_id := "ASSESS_RESPONSE_PROCTITIS_3",
          description := "Assess Proctitis response (4 weeks)",
          conditional_next_step_ids := proctitis3_cond }),
       ("TOPICAL_ASA_LEFTEXT",
        { step_id := "TOPICAL_ASA_LEFTEXT",
          description := "Topical 5-ASA (Enema)",
          default_next_step_id := some "ADD_ORAL_ASA_LEFTEXT" }),
       ("ADD_ORAL_ASA_LEFTEXT",
        { step_id := "ADD_ORAL_ASA_LEFTEXT",
          description := "Add High-Dose Oral 5-ASA",
          default_next_step_id := some "ASSESS_RESPONSE_LEFTEXT_1" }),
       ("ASSESS_RESPONSE_LEFTEXT_1",
        { step_id := "ASSESS_RESPONSE_LEFTEXT_1",
          description := "Assess Left-Sided/Extensive response (4 weeks)",
          conditional_next_step_ids := leftext1_cond }),
       ("ADD_ORAL_STEROID_LEFTEXT",
        { step_id := "ADD_ORAL_STEROID_LEFTEXT",
          description := "Add Oral Corticosteroid",
          default_next_step_id := some "ASSESS_RESPONSE_LEFTEXT_2" }),
       ("ASSESS_RESPONSE_LEFTEXT_2",
        { step_id := "ASSESS_RESPONSE_LEFTEXT_2",
          description := "Assess Left-Sided/Extensive response (4 weeks)",
          conditional_next_step_ids := leftext2_cond })] }

/-- The observable result of `print_plan_path` when it returns normally:
the step ids whose headers were printed, whether the step-missing error
line was printed (and for which id), whether the end-of-path line was
printed, and whether the final ellipsis line was printed. -/
structure TraceResult where
  visited : List String
  missing : Option String := none
  ended : Bool := false
  ellipsis : Bool := false
deriving DecidableEq, Repr

/-- Python string truthiness for the while-loop guard of `print_plan_path`. -/
def pyTruthy (s : Option String) : Bool :=
  match s with
  | none => false
  | some v => !v.isEmpty

/-- nice.py lines 732-761: `print_plan_path`.  The loop guard is
`while current_step_id and step_count < max_steps_to_print` with the limit
hardcoded to 6 (line 736).  On the first visited step, line 745 evaluates
`step.details`; the `AlgorithmStep` dataclass has no `details` attribute,
so CPython raises `AttributeError` on every plan whose start step resolves.
The body past that read (drug printing, next-step selection, the
end-of-path message, the ellipsis after the loop) is unreachable; the only
normal returns are a falsy start id (loop never entered) and a start id
absent from `plan.steps` (error message printed, loop broken). -/
def print_plan_path (plan : AlgorithmPlan) : Except PyError TraceResult :=
  if !pyTruthy (some plan.start_step_id) then
    Except.ok { visited := [] }
  else
    match lookupStep plan.steps plan.start_step_id with
    | none => Except.ok { visited := [], missing := some plan.start_step_id }
    | some _ =>
        Except.error (PyError.attributeError
          "AlgorithmStep object has no attribute details")

/-- A minimal plan containing a step whose `default_next_step_id` loops
back to itself: the cycle scenario of the traversal-termination claim. -/
def selfLoopPlan : AlgorithmPlan :=
  { condition := "SelfLoop"
    start_step_id := "LOOP"
    steps := [("LOOP", { step_id := "LOOP", description := "loops to itself",
                         default_next_step_id := some "LOOP" })] }

/-! ## Theorems -/

/-- Supporting fact (spec section 8, referenced by the analysis of the
builder claims): every plan the Ulcerative Colitis builder returns passes
the structural invariants, for all sixteen extent/severity combinations
and arbitrary values of the unused parameters. -/
theorem ucPlanStructurallyValid (e : UCExtent) (s : UCSeverity)
    (c : String) (r : Option BooleanStatus) :
    planValidB (UlcerativeColitis.induce_remission_plan e s c r) = true := by
  cases e <;> cases s <;> rfl

/-- C1 counterexample: a plan whose start step id is absent from `steps`,
whose only key mismatches the `step_id` of its step, and whose default
reference dangles is nevertheless constructed without any error by the
`AlgorithmPlan` dataclass initializer, contradicting the claim that
construction fails in those cases. -/
theorem C1_counterexample_invalid_plan_constructed :
    AlgorithmPlan.init "Demo" "MISSING_START"
        [("A", { step_id := "B", description := "key mismatches step_id",
                 default_next_step_id := some "NOWHERE" })] [] [] none none =
      Except.ok danglingPlan ∧
    hasKey danglingPlan.steps danglingPlan.start_step_id = false ∧
    planValidB danglingPlan = false := by
  refine ⟨rfl, ?_, ?_⟩ <;> decide

/-- C1 (amended): constructing an `AlgorithmPlan` never fails when its
arguments are supplied — the dataclass performs no validation, so in
particular the invariant-violating `danglingPlan` is returned as-is. -/
theorem C1_amended_construction_never_validates :
    (∀ (condition start_step_id : String) (steps : List (String × AlgorithmStep))
       (warnings required_referrals : List String)
       (fdr sc : Option String), ∃ p : AlgorithmPlan,
        AlgorithmPlan.init condition start_step_id steps warnings
          required_referrals fdr sc = Except.ok p) ∧
    AlgorithmPlan.init "Demo" "MISSING_START" danglingPlan.steps [] [] none none =
      Except.ok danglingPlan ∧
    planValidB danglingPlan = false := by
  refine ⟨fun c st sp w r f s => ⟨_, rfl⟩, rfl, by decide⟩

/-- C2 (code bug evaluated at the failing input): the Pulmonary Embolism
builder raises `TypeError` — `AlgorithmStep` has no `details` field but is
passed `details=` for its first step — and therefore returns no plan at
all, for the representative fact-set of the source demo driver. -/
theorem C2_pe_builder_raises_at_failing_input :
    PulmonaryEmbolism.get_investigation_management_plan
        true false 105 false true false false false false =
      Except.error (PyError.typeError
        "AlgorithmStep init got an unexpected keyword argument: details") := rfl

/-- C3 counterexample: on a plan whose single step loops to itself via its
default, `print_plan_path` crashes with `AttributeError` (reading the
nonexistent `step.details`) instead of halting at a step budget with a
`TraversalBudgetExceeded` report — refuting the claim, which promises the
traversal never crashes. -/
theorem C3_counterexample_traversal_crashes :
    print_plan_path selfLoopPlan =
      Except.error (PyError.attributeError
        "AlgorithmStep object has no attribute details") := rfl

/-- C3 (amended): for every plan whose (nonempty) start step id resolves in
`steps` — in particular any self-looping plan — `print_plan_path` raises
`AttributeError` on the first visited step; the hardcoded 6-step print
limit and its ellipsis marker are unreachable, and no caller-supplied
budget or `TraversalBudgetExceeded` value exists in the code. -/
theorem C3_amended_traversal_raises_attribute_error
    (p : AlgorithmPlan) (s : AlgorithmStep)
    (h1 : p.start_step_id.isEmpty = false)
    (h2 : lookupStep p.steps p.start_step_id = some s) :
    print_plan_path p =
      Except.error (PyError.attributeError
        "AlgorithmStep object has no attribute details") := by
  simp [print_plan_path, pyTruthy, h1, h2]

/-- C3 witness: the amended theorem applied to the concrete self-loop plan. -/
theorem C3_amended_witness :
    print_plan_path selfLoopPlan =
      Except.error (PyError.attributeError
        "AlgorithmStep object has no attribute details") :=
  C3_amended_traversal_raises_attribute_error selfLoopPlan
    { step_id := "LOOP", description := "loops to itself",
      default_next_step_id := some "LOOP" } (by decide) (by decide)

/-- C4 counterexample: for the stated PE facts the Wells score computed by
the source is 6.0, not 4.5 (dvt contributes 3, heart rate 105 > 100
contributes 1.5, prior VTE contributes 1.5); moreover the builder raises
`TypeError` before producing any plan, so the claimed routing does not
exist either. -/
theorem C4_counterexample_wells_score_not_4_5 :
    calculate_wells_score_pe true false 105 false true false false = 6 ∧
    ¬ (calculate_wells_score_pe true false 105 false true false false = 9/2) ∧
    PulmonaryEmbolism.get_investigation_management_plan
        true false 105 false true false false false false =
      Except.error (PyError.typeError
        "AlgorithmStep init got an unexpected keyword argument: details") := by
  refine ⟨by norm_num [calculate_wells_score_pe],
          by norm_num [calculate_wells_score_pe], rfl⟩

/-- C4 (amended): for the PE facts the Wells score is 6.0 and interprets as
PE likely, and `get_investigation_management_plan` raises `TypeError`
while constructing its first step (the `AlgorithmStep` dataclass has no
`details` field), so no plan and no routing are ever produced. -/
theorem C4_amended_pe_end_to_end :
    calculate_wells_score_pe true false 105 false true false false = 6 ∧
    interpret_wells_score_pe
      (calculate_wells_score_pe true false 105 false true false false) =
        WellsScoreRiskPE.PE_LIKELY ∧
    PulmonaryEmbolism.get_investigation_management_plan
        true false 105 false true false false false false =
      Except.error (PyError.typeError
        "AlgorithmStep init got an unexpected keyword argument: details") := by
  refine ⟨by norm_num [calculate_wells_score_pe],
          by norm_num [interpret_wells_score_pe, calculate_wells_score_pe], rfl⟩

/-- C5 counterexample: with all seven predicates true and heart rate 105
the Wells score is 12.5 (3+3+1.5+1.5+1.5+1+1), not the claimed 12.0. -/
theorem C5_counterexample_max_score_12_5 :
    calculate_wells_score_pe true true 105 true true true true = 25/2 ∧
    ¬ (calculate_wells_score_pe true true 105 true true true true = 12) := by
  refine ⟨by norm_num [calculate_wells_score_pe],
          by norm_num [calculate_wells_score_pe]⟩

/-- C5 (amended): the Wells score is exactly the weighted sum of the seven
predicates (+3 DVT signs, +3 PE most likely, +1.5 heart rate > 100,
+1.5 immobilisation/surgery, +1.5 prior VTE, +1 haemoptysis,
+1 malignancy); all predicates false with heart rate 90 gives 0.0 and all
true with heart rate 105 gives 12.5; interpretation is PE likely exactly
when the score is strictly greater than 4, with 4.0 unlikely and 4.1
likely. -/
theorem C5_amended_wells_weighted_sum_and_boundary :
    (∀ (dvt pe immob prior haem malig : Bool) (hr : Int),
        calculate_wells_score_pe dvt pe hr immob prior haem malig =
          (if dvt then (3 : Rat) else 0) + (if pe then 3 else 0) +
          (if hr > 100 then 3/2 else 0) + (if immob then 3/2 else 0) +
          (if prior then 3/2 else 0) + (if haem then 1 else 0) +
          (if malig then 1 else 0)) ∧
    calculate_wells_score_pe false false 90 false false false false = 0 ∧
    calculate_wells_score_pe true true 105 true true true true = 25/2 ∧
    (∀ s : Rat, interpret_wells_score_pe s = WellsScoreRiskPE.PE_LIKELY ↔ s > 4) ∧
    interpret_wells_score_pe 4 = WellsScoreRiskPE.PE_UNLIKELY ∧
    interpret_wells_score_pe (41/10) = WellsScoreRiskPE.PE_LIKELY := by
  refine ⟨?_, by norm_num [calculate_wells_score_pe],
          by norm_num [calculate_wells_score_pe], ?_,
          by norm_num [interpret_wells_score_pe],
          by norm_num [interpret_wells_score_pe]⟩
  · intro dvt pe immob prior haem malig hr
    unfold calculate_wells_score_pe
    split_ifs <;> ring
  · intro s
    unfold interpret_wells_score_pe
    split_ifs with h
    · simp [h]
    · simp [h]

/-- C6 counterexample: at pH exactly 7.0 (bicarbonate 20, ketones 5) the
severity is MODERATE, not the claimed SEVERE — the severe clause requires
pH strictly below 7.0. -/
theorem C6_counterexample_ph_7_is_moderate :
    determine_dka_severity (some 7) (some 20) (some 5) = some DKASeverity.MODERATE ∧
    ¬ (determine_dka_severity (some 7) (some 20) (some 5) = some DKASeverity.SEVERE) := by
  refine ⟨by norm_num [determine_dka_severity],
          by norm_num [determine_dka_severity]; decide⟩

/-- C6 (amended): `determine_dka_severity` at pH=7.0, bicarbonate=20,
ketones=5 returns MODERATE (pH 7.0 is not < 7.0, so only the moderate
clause pH < 7.3 fires, the normal bicarbonate notwithstanding), and at
pH=7.35, bicarbonate=16, ketones=4 it returns MILD. -/
theorem C6_amended_dka_severity_boundary :
    determine_dka_severity (some 7) (some 20) (some 5) = some DKASeverity.MODERATE ∧
    determine_dka_severity (some (735/100)) (some 16) (some 4) = some DKASeverity.MILD := by
  refine ⟨by norm_num [determine_dka_severity], by norm_num [determine_dka_severity]⟩

/-- C7: in the NSTEMI/UA plan, for every input the risk-stratification step
routes to the invasive strategy exactly when the GRACE score is absent or
strictly greater than the fixed low-risk threshold (3 in the source), and
to the conservative strategy in every other case. -/
theorem C7_nstemi_risk_strat_routing
    (grace_score : Option Int) (high_bleeding_risk : Bool) :
    ∃ step : AlgorithmStep,
      lookupStep (AcuteCoronarySyndrome.get_nstemi_ua_management_plan
          grace_score high_bleeding_risk).steps "RISK_STRAT" = some step ∧
      (step.default_next_step_id = some "INVASIVE" ↔
        (grace_score = none ∨ ∃ v, grace_score = some v ∧ v > 3)) ∧
      (step.default_next_step_id = some "INVASIVE" ∨
        step.default_next_step_id = some "CONSERVATIVE") := by
  cases grace_score with
  | none =>
      refine ⟨_, rfl, ?_, ?_⟩
      · simp
      · left; rfl
  | some v =>
      by_cases h : v > 3
      · refine ⟨_, rfl, ?_, ?_⟩
        · simp [h]
        · left; simp [h]
      · refine ⟨_, rfl, ?_, ?_⟩
        · simp [h]
        · right; simp [h]

/-- C8: the Killip classifier applies its escalation in strict priority
order with the first match winning: cardiogenic shock forces Class IV for
any other flags (in particular shock with oedema, crackles and S3 all
present), otherwise frank pulmonary oedema gives Class III, otherwise
crackles or an S3 gallop give Class II, otherwise Class I. -/
theorem C8_killip_priority_order :
    (∀ c s3 o : Bool, determine_killip_class c s3 o true = KillipClass.CLASS_IV) ∧
    (∀ c s3 : Bool, determine_killip_class c s3 true false = KillipClass.CLASS_III) ∧
    (∀ c s3 : Bool, determine_killip_class c s3 false false =
      if c || s3 then KillipClass.CLASS_II else KillipClass.CLASS_I) ∧
    determine_killip_class true true true true = KillipClass.CLASS_IV := by
  refine ⟨?_, ?_, ?_, rfl⟩ <;> decide

/-- C9: the plan-or-error returned by the DKA builder is a function of
`potassium_mmol_l` alone — for any two calls agreeing on potassium, the
results coincide whatever the weight, glucose, pH, bicarbonate, ketones
and systolic blood pressure arguments are. -/
theorem C9_dka_plan_depends_only_on_potassium
    (w1 g1 p1 b1 k1 w2 g2 p2 b2 k2 potassium : Rat) (bp1 bp2 : Int) :
    DiabeticKetoacidosis.get_management_plan w1 g1 p1 b1 k1 potassium bp1 =
      DiabeticKetoacidosis.get_management_plan w2 g2 p2 b2 k2 potassium bp2 := rfl

/-- C10: with an absent DAS28 score the eligibility test coerces the score
to 0, which fails the > 5.1 comparison, so for every combination of the
remaining inputs the RA builder links CONSIDER_BIOLOGIC to
OPTIMIZE_DMARD. -/
theorem C10_ra_absent_das28_routes_to_optimize_dmard
    (failed_conventional_dmards : Int)
    (failed_biologic_tnfi tb_screening_done_and_negative has_active_infection
     has_severe_heart_failure_for_tnfi patient_preference_biologic : Bool) :
    (RheumatoidArthritis.get_management_plan none failed_conventional_dmards
        failed_biologic_tnfi tb_screening_done_and_negative has_active_infection
        has_severe_heart_failure_for_tnfi patient_preference_biologic).map
      (fun p => (lookupStep p.steps "CONSIDER_BIOLOGIC").map
        (fun s => s.default_next_step_id)) =
      Except.ok (some (some "OPTIMIZE_DMARD")) := by
  have h1 : ¬ ((51 : Rat)/10 < 0) := by norm_num
  simp only [RheumatoidArthritis.get_management_plan, h1, false_and,
    if_false, Option.getD_none]
  rfl
